import Mathlib

/-!
Shallow embedding of the virtual-tiff IFD-to-virtual-array translator
(`src/virtual_tiff/parser.py`, `src/virtual_tiff/codecs.py`) together with
theorems settling the specification claims about it.

Python integers become `Nat`, fallible code returns `Except TiffError`,
and the heterogeneous tag dictionaries become association lists.  The
repository's `constants.py` module (the `SAMPLE_DTYPES`, `COMPRESSORS`,
`ENDIAN` and `GEO_KEYS` tables) is not present under `src/`, so those
tables are modelled from the spec; every such definition is marked in its
doc comment.
-/

set_option maxRecDepth 8192

namespace VirtualTiff

/-- Python exception kinds raised by the translator: `ValueError`,
`NotImplementedError`, and the `IndexError` that an out-of-range tuple
access produces. -/
inductive TiffError
  | valueError (msg : String)
  | notImplementedError (msg : String)
  | indexError
  deriving DecidableEq, Repr

/-- Byte order, mirroring the `zarr.codecs.bytes.Endian` enum with members
`little` and `big`. -/
inductive Endian
  | little
  | big
  deriving DecidableEq, Repr

/-- Mirrors `parse_enum(value, Endian)`: the strings "little" and "big" are
accepted, anything else is a `ValueError`. -/
def parseEndian (s : String) : Except TiffError Endian :=
  if s = "little" then .ok .little
  else if s = "big" then .ok .big
  else .error (.valueError ("Value must be a member of Endian, got " ++ s))

/-- Mirrors `virtual_tiff.codecs.ChunkyCodec`, a frozen dataclass whose only
field is an optional byte order. -/
structure ChunkyCodec where
  endian : Option Endian
  deriving DecidableEq, Repr

/-- Mirrors `ChunkyCodec.__init__`: the `endian` keyword defaults to
"little"; `None` is kept as-is, a string is validated against the `Endian`
enum by `parse_enum`. -/
def ChunkyCodec.init (endian : Option String) : Except TiffError ChunkyCodec :=
  match endian with
  | none => .ok ⟨none⟩
  | some s => (parseEndian s).map (fun e => ⟨some e⟩)

/-- A codec configuration dictionary as consumed by `from_dict`: the codec
name plus an optional configuration mapping.  Only the "endian" key can
legally occur for `ChunkyCodec`; its value is an optional endian string,
`none` standing for Python's `None`. -/
structure CodecDict where
  name : String
  configuration : Option (List (String × Option String))
  deriving DecidableEq, Repr

/-- Mirrors `ChunkyCodec.to_dict`: the returned dictionary holds only the
codec name and no configuration entry at all. -/
def ChunkyCodec.to_dict (_c : ChunkyCodec) : CodecDict :=
  ⟨"ChunkyCodec", none⟩

/-- Mirrors `ChunkyCodec.from_dict`: `parse_named_configuration` checks that
the "name" entry equals "ChunkyCodec" (the configuration being optional and
defaulted to the empty mapping), then the codec is rebuilt by calling the
constructor with the configuration entries as keyword arguments, so a
missing "endian" key falls back to the constructor default "little" and an
unexpected key is a `TypeError` (modelled as an error value). -/
def ChunkyCodec.from_dict (data : CodecDict) : Except TiffError ChunkyCodec :=
  if data.name ≠ "ChunkyCodec" then
    .error (.valueError ("Expected name to be ChunkyCodec, got " ++ data.name))
  else
    let cfg := data.configuration.getD []
    if cfg.any (fun p => p.1 ≠ "endian") then
      .error (.valueError "got an unexpected keyword argument")
    else
      match cfg.lookup "endian" with
      | none => ChunkyCodec.init (some "little")
      | some v => ChunkyCodec.init v

/-- C1: the claim states that serializing a `ChunkyCodec` with `to_dict` and
reconstructing it with `from_dict` yields a codec equal to the original for
both byte orders, in particular with the same `endian` field.  The code
drops the configuration in `to_dict`, so the big-endian codec comes back
little-endian: evaluating the round trip at the failing input
`ChunkyCodec(endian="big")` yields `endian = little`, contradicting the
repository's own `test_chunky_codec_roundtrip_preserves_endian`. -/
theorem c1_roundtrip_drops_big_endian :
    ChunkyCodec.from_dict (ChunkyCodec.to_dict ⟨some .big⟩) = .ok ⟨some .little⟩ ∧
    ChunkyCodec.from_dict (ChunkyCodec.to_dict ⟨some .big⟩) ≠ .ok ⟨some .big⟩ := by
  refine ⟨rfl, ?_⟩
  intro h
  rw [show ChunkyCodec.from_dict (ChunkyCodec.to_dict ⟨some .big⟩) =
    .ok ⟨some .little⟩ from rfl] at h
  simp at h

/-- Modelled from the spec: the `SAMPLE_DTYPES` table lives in the
repository's `constants.py`, which is absent from `src/`.  Per the spec it
maps a (sample-format, bit-width) pair to a concrete scalar type, covering
unsigned (1), signed (2) and floating-point (3) formats at the standard
widths, with the 64-bit integer types denoted by the numpy characters
"q"/"Q" that the resolver later rejects. -/
def SAMPLE_DTYPES (fmt : Nat) (bits : Nat) : Option String :=
  match fmt, bits with
  | 1, 8 => some "u1"
  | 1, 16 => some "u2"
  | 1, 32 => some "u4"
  | 1, 64 => some "Q"
  | 2, 8 => some "i1"
  | 2, 16 => some "i2"
  | 2, 32 => some "i4"
  | 2, 64 => some "q"
  | 3, 16 => some "f2"
  | 3, 32 => some "f4"
  | 3, 64 => some "f8"
  | _, _ => none

/-- Mirrors `numpy.dtype(char).itemsize` for the scalar type characters the
`SAMPLE_DTYPES` table can produce. -/
def itemsizeOf (kind : String) : Nat :=
  if kind = "u1" ∨ kind = "i1" then 1
  else if kind = "u2" ∨ kind = "i2" ∨ kind = "f2" then 2
  else if kind = "u4" ∨ kind = "i4" ∨ kind = "f4" then 4
  else 8

/-- A numpy scalar dtype as the translator uses it: the type character pair,
its item size, and an explicit byte order (`none` is numpy's native/"|"
marker, which `_get_dtype` leaves in place exactly for single-byte types). -/
structure NpDtype where
  kind : String
  itemsize : Nat
  byteorder : Option Endian
  deriving DecidableEq, Repr

/-- Mirrors numpy's `dtype.str` prefix: "<" and ">" for explicit byte
orders, "|" for a dtype without one. -/
def NpDtype.str (d : NpDtype) : String :=
  (match d.byteorder with
   | some .little => "<"
   | some .big => ">"
   | none => "|") ++ d.kind

/-- Mirrors `parser._get_dtype`: checks that sample formats and bits per
sample are uniform, looks the first pair up in `SAMPLE_DTYPES` (a missing
entry is a `ValueError`), rejects the 64-bit integer characters "q"/"Q"
with `NotImplementedError`, and annotates multi-byte types with the byte
order derived from the `endian` string (">" exactly for "big").  Python's
`all(x == t[0] for x in t)` is vacuously true on an empty tuple, whose
first-element access then raises `IndexError` at the table lookup. -/
def _get_dtype (sample_format : List Nat) (bits_per_sample : List Nat)
    (endian : String) : Except TiffError NpDtype :=
  if ¬ sample_format.all (fun x => x = sample_format.headD 0) then
    .error (.valueError
      ("The Zarr specification does not allow multiple data types in a single array, but the TIFF had multiple sample formats in a single IFD: "
        ++ toString sample_format))
  else if ¬ bits_per_sample.all (fun x => x = bits_per_sample.headD 0) then
    .error (.valueError
      ("The Zarr specification does not allow multiple data types in a single array, but the TIFF had multiple bits per sample in a single IFD: "
        ++ toString bits_per_sample))
  else
    match sample_format.head?, bits_per_sample.head? with
    | some fmt, some bits =>
      match SAMPLE_DTYPES fmt bits with
      | none => .error (.valueError
          ("Unrecognized datatype, got sample_format = " ++ toString sample_format
            ++ " and bits_per_sample = " ++ toString bits_per_sample))
      | some kind =>
        if kind = "q" ∨ kind = "Q" then
          .error (.notImplementedError
            "Requires upstream fix; see https://github.com/virtual-zarr/virtual-tiff/issues/42.")
        else
          let base : NpDtype := ⟨kind, itemsizeOf kind, none⟩
          if base.itemsize > 1 then
            .ok { base with byteorder := some (if endian = "big" then .big else .little) }
          else
            .ok base
    | _, _ => .error .indexError

/-- Modelled from the spec: the `COMPRESSORS` table also lives in the absent
`constants.py`.  Per the spec it is a closed mapping from recognized TIFF
compression tag values to codec names, covering LZW, JPEG, deflate and the
high-ratio zstd codec (whose registered codec name is
"imagecodecs_zstd"). -/
def COMPRESSORS (tag : Nat) : Option String :=
  match tag with
  | 5 => some "imagecodecs_lzw"
  | 7 => some "imagecodecs_jpeg"
  | 8 => some "imagecodecs_deflate"
  | 32946 => some "imagecodecs_deflate"
  | 50000 => some "imagecodecs_zstd"
  | _ => none

/-- A key of the `other_tags` dictionary of an IFD.  The dictionary is keyed
by integer tag codes (the parser reads tag 330 with an integer key), but
`_get_compression` performs a lookup with a string key, so both key kinds
are represented. -/
abbrev TagKey : Type := Nat ⊕ String

/-- Convenience constructor for integer tag keys. -/
def TagKey.num (n : Nat) : TagKey := Sum.inl n

/-- Convenience constructor for string tag keys. -/
def TagKey.str (s : String) : TagKey := Sum.inr s

/-- Mirrors `dict.get` on the `other_tags` mapping. -/
def tagsGet (tags : List (TagKey × Nat)) (k : TagKey) : Option Nat :=
  (tags.find? (fun p => p.1 = k)).map (fun p => p.2)

/-- A bytes-to-bytes decompression codec as assembled by the parser: either
the zstd codec carrying its level parameter, or a plain codec identified by
its registered name. -/
inductive BBCodec
  | zstd (level : Nat)
  | named (codec_name : String)
  deriving DecidableEq, Repr

/-- Mirrors the module constant `DEFAULT_ZSTD_LEVEL = 9`. -/
def DEFAULT_ZSTD_LEVEL : Nat := 9

/-- Mirrors `parser._get_compression`: the tag is resolved against the
closed `COMPRESSORS` table (an unknown tag is a `ValueError` naming it);
any recognized codec is then refused with `NotImplementedError` when the
IFD carries JPEG quantization tables; for the zstd codec the level is read
with `ifd.other_tags.get("ZSTD_LEVEL_TAG", DEFAULT_ZSTD_LEVEL)` — note the
literal string key "ZSTD_LEVEL_TAG", exactly as the source writes it. -/
def _get_compression (other_tags : List (TagKey × Nat)) (jpeg_tables : Bool)
    (compression : Nat) : Except TiffError BBCodec :=
  match COMPRESSORS compression with
  | none => .error (.valueError
      ("TIFF has compressor tag " ++ toString compression
        ++ ", which is not recognized. Please raise an issue for support."))
  | some codec_name =>
    if jpeg_tables then
      .error (.notImplementedError
        "JPEG compression with quantization tables is not yet supported.")
    else if codec_name = "imagecodecs_zstd" then
      .ok (.zstd ((tagsGet other_tags (TagKey.str "ZSTD_LEVEL_TAG")).getD DEFAULT_ZSTD_LEVEL))
    else
      .ok (.named codec_name)

/-- An attribute value: the translator stores strings (GDAL metadata items,
the nodata value), integer-like scalars (enum codes, geo keys) and numeric
sequences (pixel scale, tie points); only equality and Python truthiness of
these values matter to the translator. -/
inductive AttrValue
  | str (s : String)
  | nat (n : Nat)
  | intList (l : List Int)
  deriving DecidableEq, Repr

/-- Python truthiness of an attribute value. -/
def AttrValue.truthy : AttrValue → Bool
  | .str s => s ≠ ""
  | .nat n => n ≠ 0
  | .intList l => l ≠ []

/-- Rendering of an attribute value inside an f-string. -/
def AttrValue.text : AttrValue → String
  | .str s => s
  | .nat n => toString n
  | .intList l => toString l

/-- Mirrors Python's `dict.get(k)` on an insertion-ordered dictionary
represented as an association list (keys are unique by construction, so
first match is the match). -/
def alGet : List (String × AttrValue) → String → Option AttrValue
  | [], _ => none
  | p :: t, k => if p.1 = k then some p.2 else alGet t k

/-- Mirrors Python's `attrs[k] = v` on an insertion-ordered dictionary
represented as an association list: an existing key is overwritten in
place, a new key is appended. -/
def dictSet : List (String × AttrValue) → String → AttrValue →
    List (String × AttrValue)
  | [], k, v => [(k, v)]
  | p :: t, k, v => if p.1 = k then (k, v) :: t else p :: dictSet t k v

/-- The fields of `async_tiff.ImageFileDirectory` that the translator reads
(an external, read-only input per the spec).  Optional tags are `Option`s
or carry `0`/`[]` for Python's falsy absent values; the GDAL metadata XML
blob is abstracted to its already-parsed list of name/text items, since the
translator only consumes it through `gdal_metadata_to_dict`. -/
structure ImageFileDirectory where
  image_height : Nat
  image_width : Nat
  tile_height : Nat := 0
  tile_width : Nat := 0
  rows_per_strip : Nat := 0
  tile_offsets : List Nat := []
  tile_byte_counts : List Nat := []
  strip_offsets : List Nat := []
  strip_byte_counts : List Nat := []
  sample_format : List Nat := [1]
  bits_per_sample : List Nat := [8]
  samples_per_pixel : Nat := 1
  planar_configuration : Nat := 1
  predictor : Nat := 1
  compression : Nat := 1
  photometric_interpretation : Nat := 1
  jpeg_tables : Bool := false
  other_tags : List (TagKey × Nat) := []
  geo_key_directory : Option (List (String × AttrValue)) := none
  model_pixel_scale : Option AttrValue := none
  model_tiepoint : Option AttrValue := none
  gdal_metadata : Option (List (String × String)) := none
  gdal_nodata : Option String := none
  deriving DecidableEq, Repr

/-- Chunk geometry: the parser's `tuple[int, ...] | list[list[int]]` union,
made explicit as a sum.  `_is_nested_sequence` distinguishes the two
branches in the source; here that test is the constructor itself. -/
inductive Chunks
  | regular (shape : List Nat)
  | rectilinear (blocks : List (List Nat))
  deriving DecidableEq, Repr

/-- Mirrors `utils._is_nested_sequence` on the chunk values the parser
produces (always per-axis and non-empty, so the duck-typed nesting test
coincides with the constructor). -/
def Chunks.isNested : Chunks → Bool
  | .regular _ => false
  | .rectilinear _ => true

/-- Mirrors `parser._get_chunks_from_tiles`: the chunk shape is the tile
height and width and the byte ranges are the tile tag arrays. -/
def _get_chunks_from_tiles (ifd : ImageFileDirectory) :
    Chunks × List Nat × List Nat :=
  (.regular [ifd.tile_height, ifd.tile_width], ifd.tile_offsets, ifd.tile_byte_counts)

/-- Mirrors `parser._get_chunks_from_strips`: rows per strip clipped to the
image height; a non-zero remainder produces a rectilinear geometry whose
row-axis blocks are the full strips followed by the remainder, written
`[rows_per_strip] * quotient + [remainder]` in the source. -/
def _get_chunks_from_strips (ifd : ImageFileDirectory) (image_height : Nat) :
    Chunks × List Nat × List Nat :=
  let rows_per_strip := ifd.rows_per_strip
  let chunks : Chunks :=
    if rows_per_strip > image_height then
      .regular [image_height, ifd.image_width]
    else if image_height % rows_per_strip > 0 then
      .rectilinear [List.replicate (image_height / rows_per_strip) rows_per_strip
        ++ [image_height % rows_per_strip], [ifd.image_width]]
    else
      .regular [rows_per_strip, ifd.image_width]
  (chunks, ifd.strip_offsets, ifd.strip_byte_counts)

/-- Mirrors `parser._add_dim_for_samples_per_pixel`: the sample count is
prepended to the shape; a planar configuration of 2 forces a band chunk
size of 1 in both the regular and the rectilinear representation, any other
configuration uses the whole sample count as the band chunk. -/
def _add_dim_for_samples_per_pixel (ifd : ImageFileDirectory)
    (shape : List Nat) (chunks : Chunks) : List Nat × Chunks :=
  let sample_dim_length := ifd.samples_per_pixel
  let shape := sample_dim_length :: shape
  let chunks :=
    if ifd.planar_configuration = 2 then
      match chunks with
      | .rectilinear l => .rectilinear (List.replicate sample_dim_length 1 :: l)
      | .regular l => .regular (1 :: l)
    else
      match chunks with
      | .rectilinear l => .rectilinear ([sample_dim_length] :: l)
      | .regular l => .regular (sample_dim_length :: l)
  (shape, chunks)

/-- Mirrors `math.ceil(a / b)` on the natural chunk extents the parser
feeds it (the source raises `ZeroDivisionError` for a zero chunk size,
which never occurs on accepted inputs). -/
def ceilDiv (a b : Nat) : Nat := (a + b - 1) / b

/-- Per-axis view of a chunk geometry as the manifest builder zips it
against the shape: a regular axis contributes its chunk size, a
rectilinear axis its block list. -/
def Chunks.axes : Chunks → List (Nat ⊕ List Nat)
  | .regular l => l.map Sum.inl
  | .rectilinear l => l.map Sum.inr

/-- The chunk manifest: the N-dimensional grid shape together with the
row-major list of (path, offset, length) cells, exactly the arrays that
`ChunkManifest.from_arrays` receives. -/
structure ChunkManifestModel where
  gridShape : List Nat
  entries : List (String × Nat × Nat)
  deriving DecidableEq, Repr

/-- Mirrors the `chunk_manifest_shape` binding of
`parser._construct_chunk_manifest`: the grid shape is `ceil(extent /
chunk)` on regular axes and the block count on rectilinear axes. -/
def chunkManifestShape (shape : List Nat) (chunks : Chunks) : List Nat :=
  (shape.zip chunks.axes).map (fun p =>
    match p.2 with
    | Sum.inl n => ceilDiv p.1 n
    | Sum.inr blocks => blocks.length)

/-- Mirrors the body of `parser._construct_chunk_manifest`: an all-zero
offsets or byte-counts array (in numpy, vacuously an empty one too) is
rejected; the flat arrays are then reshaped row-major into the grid (a size
mismatch is numpy's reshape `ValueError`) and every cell is paired with the
source path. -/
def _construct_chunk_manifest (path : String) (shape : List Nat)
    (chunks : Chunks) (offsets byte_counts : List Nat) :
    Except TiffError ChunkManifestModel :=
  let chunk_manifest_shape := chunkManifestShape shape chunks
  if offsets.all (fun x => x = 0) ∨ byte_counts.all (fun x => x = 0) then
    .error (.notImplementedError "TIFFs without byte counts and offsets aren't supported")
  else if offsets.length ≠ chunk_manifest_shape.prod ∨
      byte_counts.length ≠ chunk_manifest_shape.prod then
    .error (.valueError "cannot reshape array")
  else
    .ok ⟨chunk_manifest_shape, (offsets.zip byte_counts).map (fun p => (path, p.1, p.2))⟩

/-- A codec pipeline step as the assembler produces it: the repository's
`HorizontalDeltaCodec` and `FloatPredCodec` (array-to-array predictors),
zarr's `TransposeCodec`, the repository's `ChunkyCodec` and zarr's
`BytesCodec` (array-to-bytes), the repository's `TruncateCodec`, and a
bytes-to-bytes decompression codec. -/
inductive Codec
  | horizontalDelta
  | floatPred (dtype : String) (shape : Chunks)
  | transpose (order : List Nat)
  | chunky (endian : Endian)
  | bytes (endian : Endian)
  | truncate
  | compressor (c : BBCodec)
  deriving DecidableEq, Repr

/-- Mirrors `parser._get_codecs`: predictor codecs first (2 is horizontal
delta, 3 the float predictor parameterized by `dtype.str` and the chunk
shape), then for a chunky planar configuration with more than one sample a
`TransposeCodec` whose order is `(0, *tuple(range(1, len(shape)))[::-1])`
followed by a `ChunkyCodec`, else a plain `BytesCodec` (both byte-order
parameterized and validating the endian string), then a `TruncateCodec`
exactly for a nested (rectilinear) chunk value, then the decompression
codec exactly for a compression code above 1. -/
def _get_codecs (ifd : ImageFileDirectory) (shape : List Nat) (chunks : Chunks)
    (dtype : NpDtype) (endian : String) : Except TiffError (List Codec) :=
  let codecs : List Codec :=
    if ifd.predictor = 2 then [.horizontalDelta]
    else if ifd.predictor = 3 then [.floatPred dtype.str chunks]
    else []
  let compression := ifd.compression
  let withBytes : Except TiffError (List Codec) :=
    if ifd.planar_configuration = 1 ∧ ifd.samples_per_pixel > 1 then
      match parseEndian endian with
      | .error err => .error err
      | .ok e => .ok (codecs ++ [.transpose (0 :: (List.range' 1 (shape.length - 1)).reverse),
          .chunky e])
    else
      match parseEndian endian with
      | .error err => .error err
      | .ok e => .ok (codecs ++ [.bytes e])
  match withBytes with
  | .error err => .error err
  | .ok codecs =>
    let codecs := if chunks.isNested then codecs ++ [.truncate] else codecs
    if compression > 1 then
      match _get_compression ifd.other_tags ifd.jpeg_tables compression with
      | .error err => .error err
      | .ok c => .ok (codecs ++ [.compressor c])
    else
      .ok codecs

/-- Modelled from the spec: the `GEO_KEYS` allow-list also lives in the
absent `constants.py`; per the spec it is a fixed list of recognized
GeoTIFF key names. -/
def GEO_KEYS : List String :=
  ["model_type", "raster_type", "citation", "geographic_type", "projected_type"]

/-- Mirrors `parser._parse_geo_key_directory`: walks the fixed `GEO_KEYS`
allow-list and records every key whose value on the geo key directory is
truthy. -/
def _parse_geo_key_directory (gkd : List (String × AttrValue)) :
    List (String × AttrValue) :=
  GEO_KEYS.foldl (fun attrs key =>
    match gkd.lookup key with
    | some v => if v.truthy then dictSet attrs key v else attrs
    | none => attrs) []

/-- Mirrors `parser._get_attributes`: geo keys first, then the extra scalar
fields `model_pixel_scale`, `model_tiepoint` and
`photometric_interpretation` when truthy, then the parsed GDAL metadata
items merged over the mapping, then a truthy GDAL nodata value stored under
the fixed key "gdal_no_data". -/
def _get_attributes (ifd : ImageFileDirectory) : List (String × AttrValue) :=
  let attrs : List (String × AttrValue) :=
    match ifd.geo_key_directory with
    | some g => _parse_geo_key_directory g
    | none => []
  let attrs :=
    match ifd.model_pixel_scale with
    | some v => if v.truthy then dictSet attrs "model_pixel_scale" v else attrs
    | none => attrs
  let attrs :=
    match ifd.model_tiepoint with
    | some v => if v.truthy then dictSet attrs "model_tiepoint" v else attrs
    | none => attrs
  let attrs :=
    if ifd.photometric_interpretation ≠ 0 then
      dictSet attrs "photometric_interpretation" (.nat ifd.photometric_interpretation)
    else attrs
  let attrs :=
    match ifd.gdal_metadata with
    | some items => items.foldl (fun a p => dictSet a p.1 (.str p.2)) attrs
    | none => attrs
  match ifd.gdal_nodata with
  | some v => if v ≠ "" then dictSet attrs "gdal_no_data" (.str v) else attrs
  | none => attrs

/-- The fill value recorded in the array metadata: `zdtype.default_scalar()`
is zarr's fixed zero scalar of the data type (floating-point zero for float
kinds, integer zero otherwise). -/
inductive FillValue
  | intZero
  | floatZero
  deriving DecidableEq, Repr

/-- Whether a dtype is a floating-point kind. -/
def NpDtype.isFloat (d : NpDtype) : Bool :=
  d.kind = "f2" ∨ d.kind = "f4" ∨ d.kind = "f8"

/-- Mirrors `parse_data_type(dtype).default_scalar()`. -/
def defaultScalar (d : NpDtype) : FillValue :=
  if d.isFloat then .floatZero else .intZero

/-- The chunk grid entry of the array metadata: the "regular" grid with a
`chunk_shape` or the "rectilinear" grid with inline `chunk_shapes`, chosen
on whether `chunks[0]` is an int. -/
inductive ChunkGrid
  | regular (chunk_shape : List Nat)
  | rectilinear (chunk_shapes : List (List Nat))
  deriving DecidableEq, Repr

/-- The chunk grid derived from a chunk value. -/
def chunkGridOf : Chunks → ChunkGrid
  | .regular l => .regular l
  | .rectilinear l => .rectilinear l

/-- Mirrors the `_name_` attribute of `async_tiff`'s photometric
interpretation enum at the two codes the parser rejects (6 is YCbCr and 8
is CIELab in the TIFF enumeration). -/
def photometricName (n : Nat) : String :=
  if n = 6 then "YCbCr" else if n = 8 then "CIELab" else "Unknown"

/-- The per-IFD array descriptor (`ManifestArray` with its
`ArrayV3Metadata`): shape, data type, chunk grid, fill value, codec
pipeline, attributes, dimension names and chunk manifest. -/
structure ManifestArrayDesc where
  shape : List Nat
  data_type : NpDtype
  chunk_grid : ChunkGrid
  fill_value : FillValue
  codecs : List Codec
  attributes : List (String × AttrValue)
  dimension_names : List String
  manifest : ChunkManifestModel
  deriving DecidableEq, Repr

/-- Mirrors the shape/chunks/dimension-names update of
`parser._construct_manifest_array`: a sample count above 1 prepends the
band dimension via `_add_dim_for_samples_per_pixel` and the "band"
dimension name; otherwise the two-dimensional values pass through. -/
def sdcOf (ifd : ImageFileDirectory) (chunks : Chunks) :
    List Nat × Chunks × List String :=
  if ifd.samples_per_pixel > 1 then
    ((_add_dim_for_samples_per_pixel ifd [ifd.image_height, ifd.image_width] chunks).1,
     (_add_dim_for_samples_per_pixel ifd [ifd.image_height, ifd.image_width] chunks).2,
     ["band", "y", "x"])
  else ([ifd.image_height, ifd.image_width], chunks, ["y", "x"])

/-- The tail of `parser._construct_manifest_array` past dtype resolution and
layout selection: the photometric guard, the band dimension, the chunk
manifest, the codecs, the attributes with the nested-grid guard, and the
final metadata assembly with `default_scalar` as fill value. -/
def cmaAfterLayout (ifd : ImageFileDirectory) (path endian : String)
    (dtype : NpDtype) (chunks : Chunks) (offsets byte_counts : List Nat) :
    Except TiffError ManifestArrayDesc :=
  if ifd.photometric_interpretation = 6 ∨ ifd.photometric_interpretation = 8 then
    .error (.notImplementedError (photometricName ifd.photometric_interpretation
      ++ " PhotometricInterpretation is not yet supported."))
  else
    match _construct_chunk_manifest path (sdcOf ifd chunks).1 (sdcOf ifd chunks).2.1
        offsets byte_counts with
    | .error err => .error err
    | .ok chunk_manifest =>
      match _get_codecs ifd (sdcOf ifd chunks).1 (sdcOf ifd chunks).2.1 dtype endian with
      | .error err => .error err
      | .ok codecs =>
        if (alGet (_get_attributes ifd) "number_of_nested_grids").elim false
            AttrValue.truthy then
          .error (.notImplementedError ("Nested grids are not supported, but file has "
            ++ ((alGet (_get_attributes ifd) "number_of_nested_grids").elim ""
                AttrValue.text)
            ++ " nested grid based on GDAL metadata."))
        else
          .ok ⟨(sdcOf ifd chunks).1, dtype, chunkGridOf (sdcOf ifd chunks).2.1,
            defaultScalar dtype, codecs, _get_attributes ifd,
            (sdcOf ifd chunks).2.2, chunk_manifest⟩

/-- Mirrors `parser._construct_manifest_array` step for step: the sub-IFD
tag 330 is rejected first; the dtype is resolved; tiles take precedence
over strips and the absence of both is rejected; then `cmaAfterLayout`
performs the remaining steps on the selected layout. -/
def _construct_manifest_array (ifd : ImageFileDirectory) (path : String)
    (endian : String) : Except TiffError ManifestArrayDesc :=
  if (tagsGet ifd.other_tags (TagKey.num 330)).getD 0 ≠ 0 then
    .error (.notImplementedError "TIFFs with Sub-IFDs are not yet supported.")
  else
    match _get_dtype ifd.sample_format ifd.bits_per_sample endian with
    | .error err => .error err
    | .ok dtype =>
      if ifd.tile_height ≠ 0 then
        cmaAfterLayout ifd path endian dtype (_get_chunks_from_tiles ifd).1
          (_get_chunks_from_tiles ifd).2.1 (_get_chunks_from_tiles ifd).2.2
      else if ifd.rows_per_strip ≠ 0 then
        cmaAfterLayout ifd path endian dtype
          (_get_chunks_from_strips ifd ifd.image_height).1
          (_get_chunks_from_strips ifd ifd.image_height).2.1
          (_get_chunks_from_strips ifd ifd.image_height).2.2
      else
        .error (.notImplementedError "TIFFs without byte counts and offsets aren't supported")

/-- C2: the claim states that for a zstd-compressed IFD the codec level is
read from the vendor tag 65564 when present and defaults to 9 when absent.
The source looks the level up under the literal string key
"ZSTD_LEVEL_TAG" (the unused module constant's *name*), so on any real
`other_tags` mapping — keyed by integer tag codes — the level is always
the default 9, even when tag 65564 is present with a different value. -/
theorem c2_zstd_level_defaults_despite_vendor_tag
    (tags : List (TagKey × Nat)) (level : Nat)
    (hmem : (TagKey.num 65564, level) ∈ tags)
    (hkeys : ∀ p ∈ tags, p.1.isLeft) :
    _get_compression tags false 50000 = .ok (.zstd 9) := by
  have hz : COMPRESSORS 50000 = some "imagecodecs_zstd" := rfl
  have hfind : tags.find? (fun p => p.1 = TagKey.str "ZSTD_LEVEL_TAG") = none := by
    apply List.find?_eq_none.mpr
    intro p hp
    have hleft := hkeys p hp
    rcases hh : p.1 with a | b
    · simp [TagKey.str, hh]
    · rw [hh] at hleft
      simp at hleft
  simp [_get_compression, hz, tagsGet, hfind, DEFAULT_ZSTD_LEVEL]

/-- Witness for C2: an `other_tags` mapping holding the vendor level tag
65564 with value 22 still yields the default level 9. -/
theorem c2_witness :
    _get_compression [(TagKey.num 65564, 22)] false 50000 = .ok (.zstd 9) :=
  c2_zstd_level_defaults_despite_vendor_tag [(TagKey.num 65564, 22)] 22
    (by simp) (by intro p hp; simp at hp; simp [hp, TagKey.num])

/-- C3: for a stripped IFD with positive image height and rows per strip,
a non-dividing strip height yields (without error) a rectilinear geometry
whose row-axis blocks are the strip height repeated `H / S` times followed
by the remainder once, summing exactly to `H` with the single trailing
block strictly shorter; an evenly dividing strip height yields the regular
shape `(S, image_width)`; and a strip height above the image height is
clipped, yielding the regular shape `(H, image_width)`. -/
theorem c3_strip_geometry (ifd : ImageFileDirectory) (H : Nat)
    (hH : 0 < H) (hS : 0 < ifd.rows_per_strip) :
    (ifd.rows_per_strip ≤ H → H % ifd.rows_per_strip ≠ 0 →
      (_get_chunks_from_strips ifd H).1 = Chunks.rectilinear
        [List.replicate (H / ifd.rows_per_strip) ifd.rows_per_strip
          ++ [H % ifd.rows_per_strip], [ifd.image_width]] ∧
      (List.replicate (H / ifd.rows_per_strip) ifd.rows_per_strip
        ++ [H % ifd.rows_per_strip]).sum = H ∧
      H % ifd.rows_per_strip < ifd.rows_per_strip ∧
      0 < H / ifd.rows_per_strip) ∧
    (H % ifd.rows_per_strip = 0 →
      (_get_chunks_from_strips ifd H).1 =
        Chunks.regular [ifd.rows_per_strip, ifd.image_width]) ∧
    (H < ifd.rows_per_strip →
      (_get_chunks_from_strips ifd H).1 = Chunks.regular [H, ifd.image_width]) := by
  refine ⟨fun hle hmod => ?_, fun hmod => ?_, fun hlt => ?_⟩
  · have hngt : ¬ ifd.rows_per_strip > H := not_lt.mpr hle
    have hpos : H % ifd.rows_per_strip > 0 := Nat.pos_of_ne_zero hmod
    refine ⟨by simp [_get_chunks_from_strips, hngt, hpos], ?_, Nat.mod_lt H hS,
      Nat.div_pos hle hS⟩
    simp [List.sum_replicate, smul_eq_mul]
    have hdm := Nat.div_add_mod H ifd.rows_per_strip
    rw [Nat.mul_comm] at hdm
    exact hdm
  · have hle : ¬ ifd.rows_per_strip > H := by
      intro hgt
      rw [Nat.mod_eq_of_lt hgt] at hmod
      omega
    simp [_get_chunks_from_strips, hle, hmod]
  · simp [_get_chunks_from_strips, hlt]

/-- Witness for C3: height 7 with strip height 3 gives the rectilinear row
blocks `[3, 3, 1]` summing to 7; height 6 divides evenly into `(3, 4)`;
and height 2 below the strip height 3 is clipped to `(2, 4)`. -/
theorem c3_witness :
    (_get_chunks_from_strips
      { image_height := 7, image_width := 4, rows_per_strip := 3 } 7).1 =
        Chunks.rectilinear [[3, 3, 1], [4]] ∧
    (_get_chunks_from_strips
      { image_height := 6, image_width := 4, rows_per_strip := 3 } 6).1 =
        Chunks.regular [3, 4] ∧
    (_get_chunks_from_strips
      { image_height := 2, image_width := 4, rows_per_strip := 3 } 2).1 =
        Chunks.regular [2, 4] := by
  refine ⟨?_, ?_, ?_⟩
  · have h := (c3_strip_geometry
      { image_height := 7, image_width := 4, rows_per_strip := 3 } 7
      (by decide) (by decide)).1 (by decide) (by decide)
    simpa using h.1
  · exact (c3_strip_geometry
      { image_height := 6, image_width := 4, rows_per_strip := 3 } 6
      (by decide) (by decide)).2.1 (by decide)
  · exact (c3_strip_geometry
      { image_height := 2, image_width := 4, rows_per_strip := 3 } 2
      (by decide) (by decide)).2.2 (by decide)

/-- C5: the band dimension of length `samples_per_pixel` is prepended to
the shape for every chunk value, and the band chunk size is 1 under planar
configuration 2 (one chunk per band — the all-ones block list in the
rectilinear representation) and the full sample count under the chunky
configuration 1, for both regular and rectilinear geometries. -/
theorem c5_band_dim (ifd : ImageFileDirectory) (shape l : List Nat)
    (r : List (List Nat)) (hspp : 1 < ifd.samples_per_pixel) :
    ((_add_dim_for_samples_per_pixel ifd shape (.regular l)).1 =
        ifd.samples_per_pixel :: shape) ∧
    ((_add_dim_for_samples_per_pixel ifd shape (.rectilinear r)).1 =
        ifd.samples_per_pixel :: shape) ∧
    (ifd.planar_configuration = 2 →
      (_add_dim_for_samples_per_pixel ifd shape (.regular l)).2 =
        .regular (1 :: l) ∧
      (_add_dim_for_samples_per_pixel ifd shape (.rectilinear r)).2 =
        .rectilinear (List.replicate ifd.samples_per_pixel 1 :: r)) ∧
    (ifd.planar_configuration = 1 →
      (_add_dim_for_samples_per_pixel ifd shape (.regular l)).2 =
        .regular (ifd.samples_per_pixel :: l) ∧
      (_add_dim_for_samples_per_pixel ifd shape (.rectilinear r)).2 =
        .rectilinear ([ifd.samples_per_pixel] :: r)) := by
  refine ⟨by simp [_add_dim_for_samples_per_pixel], by simp [_add_dim_for_samples_per_pixel],
    fun h2 => ⟨?_, ?_⟩, fun h1 => ⟨?_, ?_⟩⟩
  · simp [_add_dim_for_samples_per_pixel, h2]
  · simp [_add_dim_for_samples_per_pixel, h2]
  · simp [_add_dim_for_samples_per_pixel, h1]
  · simp [_add_dim_for_samples_per_pixel, h1]

/-- Witness for C5: three samples per pixel with planar configuration 2
give band chunk 1 on a regular geometry and the all-ones band block list on
a rectilinear one; with configuration 1 the band chunk is 3. -/
theorem c5_witness :
    (_add_dim_for_samples_per_pixel
      { image_height := 4, image_width := 4, samples_per_pixel := 3,
        planar_configuration := 2 } [4, 4] (.regular [2, 4])).2 =
      Chunks.regular [1, 2, 4] ∧
    (_add_dim_for_samples_per_pixel
      { image_height := 4, image_width := 4, samples_per_pixel := 3,
        planar_configuration := 2 } [4, 4] (.rectilinear [[3, 1], [4]])).2 =
      Chunks.rectilinear [[1, 1, 1], [3, 1], [4]] ∧
    (_add_dim_for_samples_per_pixel
      { image_height := 4, image_width := 4, samples_per_pixel := 3,
        planar_configuration := 1 } [4, 4] (.regular [2, 4])).2 =
      Chunks.regular [3, 2, 4] := by
  refine ⟨?_, ?_, ?_⟩
  · exact ((c5_band_dim
      { image_height := 4, image_width := 4, samples_per_pixel := 3,
        planar_configuration := 2 } [4, 4] [2, 4] [[3, 1], [4]]
      (by decide)).2.2.1 rfl).1
  · have h := ((c5_band_dim
      { image_height := 4, image_width := 4, samples_per_pixel := 3,
        planar_configuration := 2 } [4, 4] [2, 4] [[3, 1], [4]]
      (by decide)).2.2.1 rfl).2
    simpa using h
  · exact ((c5_band_dim
      { image_height := 4, image_width := 4, samples_per_pixel := 3,
        planar_configuration := 1 } [4, 4] [2, 4] [[3, 1], [4]]
      (by decide)).2.2.2 rfl).1

/-- C8: a compression tag value outside the closed `COMPRESSORS` table is
rejected with a `ValueError` whose message names that exact tag value —
never silently mapped to a fallback codec — and the recognized JPEG
compression (tag 7) carrying quantization tables is rejected with a
`NotImplementedError`. -/
theorem c8_unknown_compressor (tags : List (TagKey × Nat)) (jt : Bool) (c : Nat) :
    (COMPRESSORS c = none →
      _get_compression tags jt c = .error (.valueError
        ("TIFF has compressor tag " ++ toString c
          ++ ", which is not recognized. Please raise an issue for support."))) ∧
    (jt = true →
      _get_compression tags jt 7 = .error (.notImplementedError
        "JPEG compression with quantization tables is not yet supported.")) := by
  constructor
  · intro hnone
    simp [_get_compression, hnone]
  · intro hjt
    have h7 : COMPRESSORS 7 = some "imagecodecs_jpeg" := rfl
    simp [_get_compression, h7, hjt]

/-- Witness for C8: the unrecognized tag 999 raises the error naming 999,
and tag 7 with quantization tables raises the unsupported-feature error. -/
theorem c8_witness :
    _get_compression [] false 999 = .error (.valueError
      "TIFF has compressor tag 999, which is not recognized. Please raise an issue for support.") ∧
    _get_compression [] true 7 = .error (.notImplementedError
      "JPEG compression with quantization tables is not yet supported.") := by
  constructor
  · have h := (c8_unknown_compressor [] false 999).1 (by rfl)
    simpa using h
  · exact (c8_unknown_compressor [] true 7).2 rfl

/-- C4: the manifest grid shape is, per axis, `ceil(extent / chunk_size)`
for a regular axis and the block count for a rectilinear axis; the flat
offset and byte-count arrays are laid out over that grid in row-major
order with every cell paired with the source path, fully dense (as many
entries as grid cells); and an all-zero offsets or all-zero byte-counts
array is an error rather than an empty manifest. -/
theorem c4_chunk_manifest (path : String) (shape : List Nat) (chunks : Chunks)
    (offsets byte_counts : List Nat) :
    (offsets.all (fun x => x = 0) = true →
      _construct_chunk_manifest path shape chunks offsets byte_counts =
        .error (.notImplementedError "TIFFs without byte counts and offsets aren't supported")) ∧
    (byte_counts.all (fun x => x = 0) = true →
      _construct_chunk_manifest path shape chunks offsets byte_counts =
        .error (.notImplementedError "TIFFs without byte counts and offsets aren't supported")) ∧
    (¬ offsets.all (fun x => x = 0) = true →
      ¬ byte_counts.all (fun x => x = 0) = true →
      offsets.length = (chunkManifestShape shape chunks).prod →
      byte_counts.length = (chunkManifestShape shape chunks).prod →
      ∃ m, _construct_chunk_manifest path shape chunks offsets byte_counts = .ok m ∧
        m.gridShape = chunkManifestShape shape chunks ∧
        m.entries = (offsets.zip byte_counts).map (fun p => (path, p.1, p.2)) ∧
        m.entries.length = m.gridShape.prod ∧
        ∀ e ∈ m.entries, e.1 = path) := by
  refine ⟨fun h0 => ?_, fun h0 => ?_, fun h1 h2 h3 h4 => ?_⟩
  · simp [_construct_chunk_manifest, h0]
  · simp [_construct_chunk_manifest, h0]
  · refine ⟨⟨chunkManifestShape shape chunks,
      (offsets.zip byte_counts).map (fun p => (path, p.1, p.2))⟩, ?_, rfl, rfl, ?_, ?_⟩
    · simp [_construct_chunk_manifest, h1, h2, h3, h4]
    · simp [List.length_zip, h3, h4]
    · intro e he
      simp at he
      obtain ⟨a, b, _, rfl⟩ := he
      rfl

/-- Witness for C4: a 4x4 image with 2x2 tiles gives the 2x2 grid with
four path-tagged cells, and an all-zero offsets array is rejected. -/
theorem c4_witness :
    (∃ m, _construct_chunk_manifest "p" [4, 4] (.regular [2, 2])
        [10, 20, 30, 40] [1, 2, 3, 4] = .ok m ∧
      m.gridShape = chunkManifestShape [4, 4] (.regular [2, 2]) ∧
      m.entries = [("p", 10, 1), ("p", 20, 2), ("p", 30, 3), ("p", 40, 4)] ∧
      m.entries.length = m.gridShape.prod) ∧
    _construct_chunk_manifest "p" [4, 4] (.regular [2, 2]) [0, 0, 0, 0] [1, 2, 3, 4] =
      .error (.notImplementedError "TIFFs without byte counts and offsets aren't supported") := by
  constructor
  · obtain ⟨m, hm, hg, he, hl, _⟩ :=
      (c4_chunk_manifest "p" [4, 4] (.regular [2, 2]) [10, 20, 30, 40] [1, 2, 3, 4]).2.2
        (by decide) (by decide) (by decide) (by decide)
    exact ⟨m, hm, hg, by rw [he]; rfl, hl⟩
  · exact (c4_chunk_manifest "p" [4, 4] (.regular [2, 2]) [0, 0, 0, 0] [1, 2, 3, 4]).1
      (by decide)

/-- C6: the assembled pipeline is the predictor codec (when any), then
exactly one array-to-bytes stage — the transpose codec followed by the
band-interleave `ChunkyCodec` for a chunky configuration with several
samples, else the plain `BytesCodec`, both parameterized by byte order —
then the `TruncateCodec` exactly when the geometry is rectilinear, then
the decompression codec exactly when the compression code is above 1. -/
theorem c6_codec_order (ifd : ImageFileDirectory) (shape : List Nat)
    (chunks : Chunks) (dtype : NpDtype) (endian : String) (e : Endian)
    (he : parseEndian endian = .ok e) (cc : BBCodec)
    (hc : ifd.compression > 1 →
      _get_compression ifd.other_tags ifd.jpeg_tables ifd.compression = .ok cc) :
    _get_codecs ifd shape chunks dtype endian = .ok
      ((if ifd.predictor = 2 then [.horizontalDelta]
        else if ifd.predictor = 3 then [.floatPred dtype.str chunks]
        else [])
       ++ (if ifd.planar_configuration = 1 ∧ ifd.samples_per_pixel > 1 then
            [.transpose (0 :: (List.range' 1 (shape.length - 1)).reverse), .chunky e]
          else [.bytes e])
       ++ (if chunks.isNested then [.truncate] else [])
       ++ (if ifd.compression > 1 then [.compressor cc] else [])) := by
  by_cases hcomp : ifd.compression > 1
  · have hcc := hc hcomp
    by_cases hp : ifd.planar_configuration = 1 ∧ ifd.samples_per_pixel > 1 <;>
      cases hn : chunks.isNested <;>
      simp [_get_codecs, he, hp, hn, hcomp, hcc, List.append_assoc] <;> rfl
  · by_cases hp : ifd.planar_configuration = 1 ∧ ifd.samples_per_pixel > 1 <;>
      cases hn : chunks.isNested <;>
      simp [_get_codecs, he, hp, hn, hcomp, List.append_assoc] <;> rfl

/-- Witness for C6: a three-band chunky, LZW-compressed, horizontal-delta
IFD with a rectilinear geometry yields delta, transpose, chunky, truncate
and the decompressor, in that order. -/
theorem c6_witness :
    _get_codecs
      { image_height := 4, image_width := 4, samples_per_pixel := 3,
        planar_configuration := 1, predictor := 2, compression := 5 }
      [3, 4, 4] (.rectilinear [[3], [3, 1], [4]])
      ⟨"u1", 1, none⟩ "little" =
      .ok [.horizontalDelta, .transpose [0, 2, 1], .chunky .little, .truncate,
        .compressor (.named "imagecodecs_lzw")] := by
  have h := c6_codec_order
    { image_height := 4, image_width := 4, samples_per_pixel := 3,
      planar_configuration := 1, predictor := 2, compression := 5 }
    [3, 4, 4] (.rectilinear [[3], [3, 1], [4]]) ⟨"u1", 1, none⟩ "little" .little rfl
    (.named "imagecodecs_lzw") (fun _ => rfl)
  simpa using h

/-- C7: dtype resolution fails exactly on a non-uniform sample-format
tuple, a non-uniform bits-per-sample tuple, a (format, bit-width) pair of
the first sample outside the `SAMPLE_DTYPES` table, or a mapped 64-bit
integer type; otherwise it returns the mapped scalar type annotated with
the detected byte order exactly when the type is multi-byte. -/
theorem c7_dtype (a : Nat) (sf' : List Nat) (b : Nat) (bps' : List Nat)
    (endian : String) (hend : endian = "little" ∨ endian = "big") :
    (((a :: sf').all (fun x => x = a) = true ∧
      (b :: bps').all (fun x => x = b) = true ∧
      (∃ kind, SAMPLE_DTYPES a b = some kind ∧ kind ≠ "q" ∧ kind ≠ "Q")) ↔
      ∃ d, _get_dtype (a :: sf') (b :: bps') endian = .ok d) ∧
    (∀ kind, SAMPLE_DTYPES a b = some kind → kind ≠ "q" → kind ≠ "Q" →
      (a :: sf').all (fun x => x = a) = true →
      (b :: bps').all (fun x => x = b) = true →
      _get_dtype (a :: sf') (b :: bps') endian =
        .ok ⟨kind, itemsizeOf kind,
          if 1 < itemsizeOf kind then
            some (if endian = "big" then .big else .little)
          else none⟩) := by
  have hmain : ∀ kind, SAMPLE_DTYPES a b = some kind → kind ≠ "q" → kind ≠ "Q" →
      (a :: sf').all (fun x => x = a) = true →
      (b :: bps').all (fun x => x = b) = true →
      _get_dtype (a :: sf') (b :: bps') endian =
        .ok ⟨kind, itemsizeOf kind,
          if 1 < itemsizeOf kind then
            some (if endian = "big" then .big else .little)
          else none⟩ := by
    intro kind hk hq hQ h1 h2
    simp only [_get_dtype, List.headD, h1, h2, not_true_eq_false, if_false,
      List.head?, hk]
    by_cases hi : 1 < itemsizeOf kind
    · simp [hq, hQ, hi]
    · simp [hq, hQ, hi]
  refine ⟨⟨fun ⟨h1, h2, kind, hk, hq, hQ⟩ => ⟨_, hmain kind hk hq hQ h1 h2⟩, ?_⟩, hmain⟩
  rintro ⟨d, hd⟩
  by_cases h1 : (a :: sf').all (fun x => x = a) = true
  · by_cases h2 : (b :: bps').all (fun x => x = b) = true
    · refine ⟨h1, h2, ?_⟩
      cases hk : SAMPLE_DTYPES a b with
      | none =>
        simp [_get_dtype, List.headD, h1, h2, hk] at hd
      | some kind =>
        refine ⟨kind, rfl, ?_, ?_⟩ <;> intro hqq <;>
          simp [_get_dtype, List.headD, h1, h2, hk, hqq] at hd
    · simp [_get_dtype, List.headD, h1, h2] at hd
  · simp [_get_dtype, List.headD, h1] at hd

/-- Witness for C7: uniform unsigned 16-bit samples under big-endian
detection resolve to "u2" annotated big-endian, applying the success case
of the resolution theorem. -/
theorem c7_witness :
    _get_dtype [1, 1] [16, 16] "big" = .ok ⟨"u2", 2, some .big⟩ := by
  have h := (c7_dtype 1 [1] 16 [16] "big" (Or.inr rfl)).2 "u2" rfl
    (by decide) (by decide) (by decide) (by decide)
  simpa using h

/-- C9: a truthy sub-IFD tag 330 is rejected with the unsupported-feature
error before anything else is examined (no hypothesis on any other field),
and, past the sub-IFD guard and dtype resolution, an IFD carrying
photometric interpretation 6 or 8 with any tile/strip layout is rejected
with the unsupported-feature error no matter what its offsets, compression,
predictor or remaining fields hold — i.e. before any chunk-manifest or
codec work is attempted. -/
theorem c9_unsupported (ifd : ImageFileDirectory) (path endian : String) :
    (∀ v, tagsGet ifd.other_tags (TagKey.num 330) = some v → v ≠ 0 →
      _construct_manifest_array ifd path endian =
        .error (.notImplementedError "TIFFs with Sub-IFDs are not yet supported.")) ∧
    ((tagsGet ifd.other_tags (TagKey.num 330)).getD 0 = 0 →
      ∀ t, _get_dtype ifd.sample_format ifd.bits_per_sample endian = .ok t →
      (ifd.tile_height ≠ 0 ∨ ifd.rows_per_strip ≠ 0) →
      (ifd.photometric_interpretation = 6 ∨ ifd.photometric_interpretation = 8) →
      _construct_manifest_array ifd path endian =
        .error (.notImplementedError (photometricName ifd.photometric_interpretation
          ++ " PhotometricInterpretation is not yet supported."))) := by
  constructor
  · intro v h330 hv
    simp [_construct_manifest_array, h330, hv]
  · intro h330 t ht hlay hph
    rcases hlay with htile | hstrip
    · rcases hph with h | h <;>
        simp [_construct_manifest_array, cmaAfterLayout, h330, ht, htile, h]
    · by_cases htile : ifd.tile_height ≠ 0
      · rcases hph with h | h <;>
          simp [_construct_manifest_array, cmaAfterLayout, h330, ht, htile, h]
      · rcases hph with h | h <;>
          simp [_construct_manifest_array, cmaAfterLayout, h330, ht, htile, hstrip, h]

/-- Witness IFD for the sub-IFD half of C9: tag 330 present and truthy. -/
def c9ifdA : ImageFileDirectory :=
  { image_height := 4, image_width := 4, rows_per_strip := 2,
    strip_offsets := [8, 40], strip_byte_counts := [32, 32],
    other_tags := [(TagKey.num 330, 1)] }

/-- Witness IFD for the photometric half of C9: YCbCr photometric code with
an unrecognized compression tag and all-zero strip offsets, so neither the
codec assembler nor the manifest builder could succeed, yet the
photometric error is the one raised. -/
def c9ifdB : ImageFileDirectory :=
  { image_height := 4, image_width := 4, rows_per_strip := 2,
    strip_offsets := [0, 0], strip_byte_counts := [0, 0],
    photometric_interpretation := 6, compression := 999 }

/-- Witness for C9 at the two concrete IFDs. -/
theorem c9_witness :
    _construct_manifest_array c9ifdA "p" "little" =
      .error (.notImplementedError "TIFFs with Sub-IFDs are not yet supported.") ∧
    _construct_manifest_array c9ifdB "p" "little" =
      .error (.notImplementedError "YCbCr PhotometricInterpretation is not yet supported.") := by
  constructor
  · exact (c9_unsupported c9ifdA "p" "little").1 1 rfl (by decide)
  · have h := (c9_unsupported c9ifdB "p" "little").2 rfl ⟨"u1", 1, none⟩ rfl
      (Or.inr (by decide)) (Or.inl rfl)
    simpa [photometricName] using h

/-- `dict.get` after `dict[k] = v` at the same key. -/
theorem alGet_dictSet_self (m : List (String × AttrValue)) (k : String)
    (v : AttrValue) : alGet (dictSet m k v) k = some v := by
  induction m with
  | nil => simp [dictSet, alGet]
  | cons p t ih =>
    by_cases hp : p.1 = k
    · simp [dictSet, alGet, hp]
    · simp [dictSet, alGet, hp, ih]

/-- `dict.get` after `dict[k] = v` at a different key. -/
theorem alGet_dictSet_ne (m : List (String × AttrValue)) (k : String)
    (v : AttrValue) (k' : String) (h : k' ≠ k) :
    alGet (dictSet m k v) k' = alGet m k' := by
  induction m with
  | nil => simp [dictSet, alGet, Ne.symm h]
  | cons p t ih =>
    by_cases hp : p.1 = k
    · have hp' : ¬ (k = k') := Ne.symm h
      have hpk : ¬ (p.1 = k') := by rw [hp]; exact hp'
      simp [dictSet, alGet, hp, hp', hpk]
    · by_cases hpk : p.1 = k'
      · simp [dictSet, alGet, hp, hpk, h]
      · simp [dictSet, alGet, hp, hpk, ih]

/-- The GDAL nodata value only enters the attribute mapping through the
final `attrs["gdal_no_data"]` assignment, on top of the attributes the same
IFD yields with no nodata tag. -/
theorem get_attributes_set_nodata (ifd : ImageFileDirectory) (w : Option String) :
    _get_attributes { ifd with gdal_nodata := w } =
      (match w with
       | some v =>
         if v ≠ "" then
           dictSet (_get_attributes { ifd with gdal_nodata := none })
             "gdal_no_data" (.str v)
         else _get_attributes { ifd with gdal_nodata := none }
       | none => _get_attributes { ifd with gdal_nodata := none }) := by
  cases w with
  | none => rfl
  | some v =>
    by_cases hv : v = "" <;> simp [_get_attributes, hv]

/-- Inversion of a successful translation: the descriptor's data type is
the resolved dtype, its fill value is the default scalar of that dtype and
its attributes are exactly `_get_attributes` of the IFD. -/
theorem cmaAL_ok_parts (ifd : ImageFileDirectory) (path endian : String)
    (dtype : NpDtype) (chunks : Chunks) (offsets byte_counts : List Nat)
    (d : ManifestArrayDesc)
    (hok : cmaAfterLayout ifd path endian dtype chunks offsets byte_counts = .ok d) :
    d.data_type = dtype ∧ d.fill_value = defaultScalar dtype ∧
      d.attributes = _get_attributes ifd := by
  unfold cmaAfterLayout at hok
  split at hok
  · exact Except.noConfusion hok
  · split at hok
    · exact Except.noConfusion hok
    · split at hok
      · exact Except.noConfusion hok
      · split at hok
        · exact Except.noConfusion hok
        · cases hok
          exact ⟨rfl, rfl, rfl⟩

/-- Inversion of a successful translation: the descriptor data type is the
resolved dtype, the fill value is the default scalar of that dtype and the
attributes are exactly the extracted attributes of the IFD. -/
theorem cma_ok_parts (ifd : ImageFileDirectory) (path endian : String)
    (d : ManifestArrayDesc)
    (hok : _construct_manifest_array ifd path endian = .ok d) :
    ∃ t, _get_dtype ifd.sample_format ifd.bits_per_sample endian = .ok t ∧
      d.data_type = t ∧ d.fill_value = defaultScalar t ∧
      d.attributes = _get_attributes ifd := by
  unfold _construct_manifest_array at hok
  split at hok
  · exact Except.noConfusion hok
  · split at hok
    · exact Except.noConfusion hok
    · rename_i dtype hdt
      split at hok
      · exact ⟨dtype, hdt, cmaAL_ok_parts _ _ _ _ _ _ _ _ hok⟩
      · split at hok
        · exact ⟨dtype, hdt, cmaAL_ok_parts _ _ _ _ _ _ _ _ hok⟩
        · exact Except.noConfusion hok

/-- Counterexample IFD for C10: a translatable stripped IFD whose GDAL
nodata tag is present but holds the empty string. -/
def c10ifd : ImageFileDirectory :=
  { image_height := 4, image_width := 4, rows_per_strip := 2,
    strip_offsets := [8, 40], strip_byte_counts := [32, 32],
    gdal_nodata := some "" }

/-- The attributes of a successful translation, `none` on failure. -/
def resultAttrs (r : Except TiffError ManifestArrayDesc) :
    Option (List (String × AttrValue)) :=
  match r with
  | .ok d => some d.attributes
  | .error _ => none

/-- C10 counterexample: the claim states that whenever the GDAL nodata tag
is present it is recorded in the attributes under "gdal_no_data".  The
source guards the assignment with Python truthiness (`if fill_value :=
ifd.gdal_nodata:`), so a present-but-empty nodata string is silently not
recorded: this IFD carries `gdal_nodata = some ""`, translates
successfully, and its attributes hold no "gdal_no_data" key. -/
theorem c10_empty_nodata_not_recorded :
    c10ifd.gdal_nodata = some "" ∧
    (resultAttrs (_construct_manifest_array c10ifd "p" "little")).isSome = true ∧
    alGet ((resultAttrs (_construct_manifest_array c10ifd "p" "little")).getD [])
      "gdal_no_data" = none :=
  ⟨rfl, rfl, rfl⟩

/-- C10 (amended): for every successfully translated IFD the fill value is
the default scalar of the resolved data type; a present *and non-empty*
GDAL nodata value is recorded under the fixed attribute key "gdal_no_data"
and nowhere else (all other attribute lookups agree with the nodata-free
attributes), and the fill value and data type never depend on the nodata
value. -/
theorem c10_fill_value_ignores_nodata (ifd : ImageFileDirectory)
    (path endian v : String) (d : ManifestArrayDesc)
    (hok : _construct_manifest_array { ifd with gdal_nodata := some v } path endian = .ok d)
    (hv : v ≠ "") :
    (∃ t, _get_dtype ifd.sample_format ifd.bits_per_sample endian = .ok t ∧
      d.data_type = t ∧ d.fill_value = defaultScalar t) ∧
    alGet d.attributes "gdal_no_data" = some (.str v) ∧
    (∀ k, k ≠ "gdal_no_data" →
      alGet d.attributes k =
        alGet (_get_attributes { ifd with gdal_nodata := none }) k) ∧
    (∀ (w : Option String) (d' : ManifestArrayDesc),
      _construct_manifest_array { ifd with gdal_nodata := w } path endian = .ok d' →
      d'.fill_value = d.fill_value ∧ d'.data_type = d.data_type) := by
  obtain ⟨t, hdt, hdty, hfill, hattrs⟩ :=
    cma_ok_parts { ifd with gdal_nodata := some v } path endian d hok
  have hdt' : _get_dtype ifd.sample_format ifd.bits_per_sample endian = .ok t := hdt
  have hset := get_attributes_set_nodata ifd (some v)
  simp only [hv, ne_eq, not_false_eq_true, if_true] at hset
  refine ⟨⟨t, hdt', hdty, hfill⟩, ?_, ?_, ?_⟩
  · rw [hattrs, hset]
    exact alGet_dictSet_self _ _ _
  · intro k hk
    rw [hattrs, hset]
    exact alGet_dictSet_ne _ _ _ _ hk
  · intro w d' hok'
    obtain ⟨t', hdt2, hdty', hfill', _⟩ :=
      cma_ok_parts { ifd with gdal_nodata := w } path endian d' hok'
    have hdt2' : _get_dtype ifd.sample_format ifd.bits_per_sample endian = .ok t' := hdt2
    have htt : t' = t := by
      rw [hdt'] at hdt2'
      exact (Except.ok.inj hdt2').symm
    constructor
    · rw [hfill', hfill, htt]
    · rw [hdty', hdty, htt]

/-- Witness for C10 (amended): the counterexample IFD with the non-empty
nodata string "-9999" records it under "gdal_no_data", keeps the integer
default scalar as fill value, and agrees with the nodata-free run. -/
theorem c10_witness :
    ∃ d, _construct_manifest_array { c10ifd with gdal_nodata := some "-9999" }
        "p" "little" = .ok d ∧
      d.fill_value = FillValue.intZero ∧
      alGet d.attributes "gdal_no_data" = some (.str "-9999") := by
  have hok : _construct_manifest_array { c10ifd with gdal_nodata := some "-9999" }
      "p" "little" = .ok
        ⟨[4, 4], ⟨"u1", 1, none⟩, .regular [2, 4], .intZero,
          [.bytes .little],
          [("photometric_interpretation", .nat 1), ("gdal_no_data", .str "-9999")],
          ["y", "x"],
          ⟨[2, 1], [("p", 8, 32), ("p", 40, 32)]⟩⟩ := rfl
  obtain ⟨_, hrec, _, _⟩ :=
    c10_fill_value_ignores_nodata c10ifd "p" "little" "-9999" _ hok (by decide)
  exact ⟨_, hok, rfl, hrec⟩

end VirtualTiff
